import Mathlib

/-!
Verification of the executors scheduler and future-token adaptor.

The development shallowly embeds the two source headers:

* `scheduler.h` — the `__scheduler` class (post/dispatch/run/poll entry
  points, outstanding-work accounting, stop/reset) and the `__scheduler_op`
  operation wrapper (`_Complete` / `_Destroy` lifecycle).
* `use_future.h` — the `__value_pack` result-packing templates, the three
  `__promise_handler` variants and the `__packaged_handler`.

Machine state that C++ keeps implicitly (the condition variable, the mutex,
the promise contents) is made explicit.  Operations are identified by
natural-number ids; user callables are opaque, so completing an operation
only records its id and performs the work-accounting side effects visible
to the scheduler.  The intrusive `__op_queue` and the thread-local
`__call_stack` registry live outside the given sources; the queue is
modelled from the specification (push appends at the tail, splice
concatenates preserving order) and the registry lookup is passed in as an
explicit parameter, exactly the way the specification phrases it
("the reentrancy-registry lookup succeeds").
-/

namespace Executors

/-! ### Operation wrapper lifecycle (`__scheduler_op`) -/

/-- Observable events during the life of a `__scheduler_op`:
`workFinished` is a call to `__scheduler::_Work_finished` (the decrement of
the outstanding-work counter), `destroySlot` is the deallocation of the heap
slot by the small-block recycler, `invokeFunc` is the invocation of the user
callable, and `exceptionOut` marks an exception propagating out of
`_Complete`. -/
inductive Event where
  | workFinished
  | destroySlot
  | invokeFunc
  | exceptionOut
  deriving DecidableEq, Repr

/-- The state of a `__scheduler_op` that matters for work accounting: its
`_M_owner` pointer.  The constructor sets it to the owning scheduler; the
move constructor nulls it in the moved-from object; the destructor calls
`_Work_finished` exactly when it is non-null. -/
structure SchedulerOp where
  owner : Option Nat
  deriving DecidableEq, Repr

/-- A freshly constructed operation owned by scheduler `s`
(`__scheduler_op::__scheduler_op(_F&&, __scheduler&)` stores `&__s` in
`_M_owner`; it also calls `_Work_started`, which the scheduler-state model
below accounts for in `post`). -/
def mkOp (s : Nat) : SchedulerOp := ⟨some s⟩

/-- Events emitted by `~__scheduler_op`: `_Work_finished` is called iff
`_M_owner` is non-null. -/
def dtorEvents (op : SchedulerOp) : List Event :=
  match op.owner with
  | some _ => [Event.workFinished]
  | none => []

/-- Event trace of `__scheduler_op::_Complete` on a live operation.
Mirrors the source line by line:

1. `__op(this)` — a unique pointer takes ownership of the heap slot;
2. `__scheduler_op __tmp(std::move(*this))` — the move constructor copies
   `_M_owner` into `__tmp` and nulls it in `*this`;
3. `__op.reset()` — destroys `*this` (whose owner is now null) and frees
   the slot;
4. `__tmp._M_func()` — invokes the moved user callable;
5. scope exit (ordinary or by unwinding) destroys `__tmp`. -/
def completeTrace (op : SchedulerOp) (funcThrows : Bool) : List Event :=
  let tmp : SchedulerOp := ⟨op.owner⟩
  let movedFrom : SchedulerOp := ⟨none⟩
  dtorEvents movedFrom ++ [Event.destroySlot] ++ [Event.invokeFunc] ++
    dtorEvents tmp ++ (if funcThrows then [Event.exceptionOut] else [])

/-- Event trace of `__scheduler_op::_Destroy`: the recycler destroys the
object (running `~__scheduler_op`) and frees the slot, without running the
callable. -/
def destroyTrace (op : SchedulerOp) : List Event :=
  dtorEvents op ++ [Event.destroySlot]

/-- Number of occurrences of an event in a trace. -/
def countEvent (e : Event) : List Event → Nat
  | [] => 0
  | x :: xs => (if x = e then 1 else 0) + countEvent e xs

/-- Index of the first occurrence of an event in a trace. -/
def firstIndex (e : Event) : List Event → Option Nat
  | [] => none
  | x :: xs => if x = e then some 0 else (firstIndex e xs).map Nat.succ

/-- `precedesIn a b tr` holds when both events occur in `tr` and the first
occurrence of `a` is strictly before the first occurrence of `b`. -/
def precedesIn (a b : Event) (tr : List Event) : Bool :=
  match firstIndex a tr, firstIndex b tr with
  | some i, some j => decide (i < j)
  | _, _ => false

/-! ### Scheduler state (`__scheduler`) -/

/-- The scheduler state visible in `scheduler.h`: the global operation
queue (operations by id, head first — `__op_queue` is modelled from the
specification: push appends at the tail, splice concatenates preserving
order), the atomic outstanding-work counter, the stopped flag, counters of
condition-variable notifications (`notify_one` / `notify_all`) and the ids
of completed operations in completion order. -/
structure Sched where
  queue : List Nat
  outstanding : Nat
  stopped : Bool
  notifyOne : Nat
  notifyAll : Nat
  completed : List Nat
  deriving DecidableEq, Repr

/-- `__scheduler::_Stop`: under the mutex, set `_M_stopped` and
`notify_all`. -/
def stopSched (s : Sched) : Sched :=
  { s with stopped := true, notifyAll := s.notifyAll + 1 }

/-- `__scheduler::_Work_started`: increment the outstanding-work counter. -/
def workStarted (s : Sched) : Sched :=
  { s with outstanding := s.outstanding + 1 }

/-- `__scheduler::_Work_finished`: decrement the counter and stop the
scheduler when it reaches zero. -/
def workFinished (s : Sched) : Sched :=
  let s1 := { s with outstanding := s.outstanding - 1 }
  if s1.outstanding = 0 then stopSched s1 else s1

/-- Completing a popped operation, as a transformation of scheduler state.
Per `__scheduler_op::_Complete` the heap slot is destroyed, the user
callable runs (recorded by id; callables are opaque to the scheduler
model), and the temporary's destructor calls `_Work_finished`. -/
def completeOp (s : Sched) (op : Nat) : Sched :=
  workFinished { s with completed := s.completed ++ [op] }

/-- Result of `__scheduler::_Post` beyond the new scheduler state: the
updated private queue when the reentrant path was taken, and whether the
scheduler mutex was acquired. -/
structure PostEffect where
  sched : Sched
  privateQueue : Option (List Nat)
  tookMutex : Bool
  deriving DecidableEq, Repr

/-- `__scheduler::_Post`.  A fresh `__scheduler_op` is created (its
constructor calls `_Work_started`).  If `_M_one_thread` holds and the
call-stack registry contains this scheduler (`reentrant` carries the found
context's private queue), the operation is appended to that private queue
without touching the mutex or the condition variable.  Otherwise the mutex
is taken, the operation is pushed onto the global queue, and `notify_one`
fires iff the new operation is now the queue's front. -/
def post (oneThread : Bool) (reentrant : Option (List Nat)) (s : Sched)
    (op : Nat) : PostEffect :=
  let s1 := workStarted s
  match (if oneThread then reentrant else none) with
  | some pq =>
      { sched := s1, privateQueue := some (pq ++ [op]), tookMutex := false }
  | none =>
      let q := s1.queue ++ [op]
      { sched :=
          { s1 with
            queue := q
            notifyOne := s1.notifyOne + (if q.head? = some op then 1 else 0) }
        privateQueue := none
        tookMutex := true }

/-- What `__scheduler::_Dispatch` did besides transforming the scheduler
state: ran the callable inline on the calling thread, or enqueued it (with
the `_Post` observables). -/
inductive DispatchAction where
  | invokedInline
  | enqueued (privateQueue : Option (List Nat)) (tookMutex : Bool)
  deriving DecidableEq, Repr

/-- `__scheduler::_Dispatch`.  If the call-stack registry contains this
scheduler (checked without consulting `_M_one_thread`), the callable is
moved to a local and invoked inline — the scheduler state is untouched.
Otherwise the callable is handed to `_Post`; on that path the registry
lookup inside `_Post` finds nothing either, since the registry is
thread-local and unchanged. -/
def dispatch (oneThread : Bool) (reentrant : Option (List Nat)) (s : Sched)
    (op : Nat) : Sched × DispatchAction :=
  match reentrant with
  | some _ => (s, DispatchAction.invokedInline)
  | none =>
      let e := post oneThread none s op
      (e.sched, DispatchAction.enqueued e.privateQueue e.tookMutex)

/-! ### Per-run context (`__scheduler::_Context`) -/

/-- `_Context::~_Context`: if the private queue is non-empty, acquire the
mutex when not already held and splice the private queue onto the tail of
the global queue.  Returns the new scheduler state and whether the lock is
held afterwards. -/
def contextDtor (s : Sched) (privateQueue : List Nat) (lockOwned : Bool) :
    Sched × Bool :=
  if privateQueue.isEmpty then (s, lockOwned)
  else ({ s with queue := s.queue ++ privateQueue }, true)

/-- `_Context::_Lock`: reacquire the mutex when not held, then splice a
non-empty private queue onto the global queue. -/
def contextLock (s : Sched) (privateQueue : List Nat) :
    Sched × Bool :=
  if privateQueue.isEmpty then (s, true)
  else ({ s with queue := s.queue ++ privateQueue }, true)

/-! ### Run and poll entry points

The entry points are embedded for a sequential execution in which user
callables are opaque to the scheduler (they neither post nor touch
scheduler state), so the per-run context's private queue stays empty and
`_Context::_Lock` between iterations only reacquires the mutex.  A
condition-variable wait with no other thread to signal it never returns,
which the embedding renders as `none`. -/

/-- `__scheduler::_Do_run_one`.  Waits while the queue is empty and the
scheduler is not stopped (sequentially: blocks forever, `none`); returns 0
once stopped; otherwise pops the front, notifies one more waiter when
multi-threaded and work remains, unlocks and completes the operation. -/
def doRunOne (oneThread : Bool) (s : Sched) : Option (Sched × Nat) :=
  match s.queue with
  | [] => if s.stopped then some (s, 0) else none
  | op :: rest =>
      if s.stopped then some (s, 0)
      else
        let s1 := { s with queue := rest }
        let s2 :=
          if !oneThread && !rest.isEmpty then
            { s1 with notifyOne := s1.notifyOne + 1 }
          else s1
        some (completeOp s2 op, 1)

/-- `__scheduler::_Do_run_one_until`.  Returns 0 at once when the deadline
has passed; a wait with nobody to signal it times out at the deadline and
returns 0; once stopped returns 0; otherwise pops and completes as
`_Do_run_one` does. -/
def doRunOneUntil (oneThread : Bool) (now absTime : Nat) (s : Sched) :
    Sched × Nat :=
  if absTime ≤ now then (s, 0)
  else
    match s.queue with
    | [] => (s, 0)
    | op :: rest =>
        if s.stopped then (s, 0)
        else
          let s1 := { s with queue := rest }
          let s2 :=
            if !oneThread && !rest.isEmpty then
              { s1 with notifyOne := s1.notifyOne + 1 }
            else s1
          (completeOp s2 op, 1)

/-- `__scheduler::_Do_poll_one`: never waits — returns 0 when the queue is
empty or the scheduler is stopped, otherwise pops and completes. -/
def doPollOne (oneThread : Bool) (s : Sched) : Sched × Nat :=
  if s.queue.isEmpty || s.stopped then (s, 0)
  else
    match s.queue with
    | [] => (s, 0)
    | op :: rest =>
        let s1 := { s with queue := rest }
        let s2 :=
          if !oneThread && !rest.isEmpty then
            { s1 with notifyOne := s1.notifyOne + 1 }
          else s1
        (completeOp s2 op, 1)

/-- The loop of `_Run`: iterate `_Do_run_one` while it returns 1,
reacquiring the lock between iterations; counts completed operations.
`fuel` bounds the iterations — with opaque callables each productive
iteration shortens the queue, so any fuel beyond the queue length is
enough. -/
def runLoop (oneThread : Bool) : Nat → Sched → Nat → Option (Sched × Nat)
  | 0, _, _ => none
  | fuel + 1, s, n =>
      match doRunOne oneThread s with
      | none => none
      | some (s1, 0) => some (s1, n)
      | some (s1, _ + 1) => runLoop oneThread fuel s1 (n + 1)

/-- The loop of `_Run_until`. -/
def runUntilLoop (oneThread : Bool) (now absTime : Nat) :
    Nat → Sched → Nat → Sched × Nat
  | 0, s, n => (s, n)
  | fuel + 1, s, n =>
      match doRunOneUntil oneThread now absTime s with
      | (s1, 0) => (s1, n)
      | (s1, _ + 1) => runUntilLoop oneThread now absTime fuel s1 (n + 1)

/-- The loop of `_Poll`. -/
def pollLoop (oneThread : Bool) : Nat → Sched → Nat → Sched × Nat
  | 0, s, n => (s, n)
  | fuel + 1, s, n =>
      match doPollOne oneThread s with
      | (s1, 0) => (s1, n)
      | (s1, _ + 1) => pollLoop oneThread fuel s1 (n + 1)

/-- `__scheduler::_Run`: when no work is outstanding, stop and return 0;
otherwise set up a per-run context and loop on `_Do_run_one`. -/
def run (oneThread : Bool) (s : Sched) : Option (Sched × Nat) :=
  if s.outstanding = 0 then some (stopSched s, 0)
  else runLoop oneThread (s.queue.length + 1) s 0

/-- `__scheduler::_Run_one`: the zero-work guard, then a single
`_Do_run_one`. -/
def runOne (oneThread : Bool) (s : Sched) : Option (Sched × Nat) :=
  if s.outstanding = 0 then some (stopSched s, 0)
  else doRunOne oneThread s

/-- `__scheduler::_Run_until`: the zero-work guard, then the timed loop. -/
def runUntil (oneThread : Bool) (now absTime : Nat) (s : Sched) :
    Sched × Nat :=
  if s.outstanding = 0 then (stopSched s, 0)
  else runUntilLoop oneThread now absTime (s.queue.length + 1) s 0

/-- `__scheduler::_Run_for`: delegates to `_Run_until` at the deadline
`steady_clock::now() + __rel_time`, sampling the clock at the call. -/
def runFor (oneThread : Bool) (now relTime : Nat) (s : Sched) :
    Sched × Nat :=
  runUntil oneThread now (now + relTime) s

/-- `__scheduler::_Poll`: the zero-work guard, then the non-blocking
loop. -/
def poll (oneThread : Bool) (s : Sched) : Sched × Nat :=
  if s.outstanding = 0 then (stopSched s, 0)
  else pollLoop oneThread (s.queue.length + 1) s 0

/-- `__scheduler::_Poll_one`: the zero-work guard, then a single
`_Do_poll_one`. -/
def pollOne (oneThread : Bool) (s : Sched) : Sched × Nat :=
  if s.outstanding = 0 then (stopSched s, 0)
  else doPollOne oneThread s

/-! ### Future-token adaptor (`use_future.h`)

The adaptor is type-generic; the embedding represents C++ types and values
by small first-order universes so the template specializations of
`__value_pack` and the three `__promise_handler` variants become functions
on them.  A handler's single permitted invocation fulfils its promise; the
embedding of each `operator()` returns the outcome that fulfils the
future. -/

/-- C++ types appearing as callback-argument types: `void`, a base type
tagged by a number, `tuple` of types, lvalue-reference and const
qualification. -/
inductive CType where
  | unit
  | base (n : Nat)
  | tuple (ts : List CType)
  | ref (t : CType)
  | constQ (t : CType)

/-- `std::decay`: strip outer reference and cv-qualification. -/
def decay : CType → CType
  | CType.ref t => decay t
  | CType.constQ t => decay t
  | CType.unit => CType.unit
  | CType.base n => CType.base n
  | CType.tuple ts => CType.tuple ts

/-- `__value_pack<_Args...>::_Type`, following the template
specializations: no arguments — `void`; one argument — `decay<_Arg>`;
otherwise — `tuple<decay<_Args>...>`. -/
def valuePackType : List CType → CType
  | [] => CType.unit
  | [t] => decay t
  | ts => CType.tuple (ts.map decay)

/-- Runtime values delivered to a completion handler. -/
inductive Val where
  | unit
  | base (n : Nat)
  | tup (vs : List Val)

/-- A captured failure: the system-error wrapping of an error code
(`make_exception_ptr(system_error(__e))`), or an opaque captured
exception. -/
inductive Failure where
  | systemError (code : Nat)
  | captured (e : Nat)
  deriving DecidableEq, Repr

/-- The settled content of the one-shot promise/future handoff. -/
inductive Outcome where
  | value (v : Val)
  | failure (e : Failure)

/-- `__value_pack<_Args...>::_Apply` as the value stored into the promise:
`set_value()` for no arguments, `set_value(arg)` for one, and
`set_value(forward_as_tuple(args...))` otherwise. -/
def valuePackApply : List Val → Val
  | [] => Val.unit
  | [v] => v
  | vs => Val.tup vs

/-- `__promise_handler<_Args...>::operator()` (no-error variant): always
fulfils the promise with the packed arguments. -/
def promiseHandlerInvoke (args : List Val) : Outcome :=
  Outcome.value (valuePackApply args)

/-- `__promise_handler<error_code, _Args...>::operator()`: a truthy error
code (non-zero value) fulfils the promise with
`make_exception_ptr(system_error(__e))`; a falsy one fulfils it with the
packed remaining arguments. -/
def promiseHandlerEcInvoke (e : Nat) (args : List Val) : Outcome :=
  if e ≠ 0 then Outcome.failure (Failure.systemError e)
  else Outcome.value (valuePackApply args)

/-- `__packaged_handler<_Func, _Alloc, _Args...>::operator()`, on a
freshly constructed handler whose promise is unset (`none`).  The body
invokes `_M_func(forward<_Args>(__args)...)` inside a try block; the catch
clause stores the captured exception in the promise.  No other statement
touches the promise, so a normal return leaves it unset and the value
`_M_func` returned is discarded. -/
def packagedHandlerInvoke (f : List Val → Except Failure Val)
    (args : List Val) : Option Outcome :=
  match f args with
  | Except.ok _ => none
  | Except.error e => some (Outcome.failure e)

/-! ### Theorems -/

/-- Claim C1: the specification states that inside `_Complete` the
decrement of the outstanding-work counter (`_Work_finished`, fired by
destroying `this`) happens before the user callable runs.  Evaluating the
embedded `_Complete` on a freshly constructed operation refutes this: the
move constructor nulls `_M_owner` in `*this`, so destroying the heap slot
performs no decrement, the callable is invoked, and only afterwards does
the temporary's destructor call `_Work_finished`. -/
theorem c1_complete_invokes_callable_before_work_finished :
    completeTrace (mkOp 0) false =
      [Event.destroySlot, Event.invokeFunc, Event.workFinished] ∧
    precedesIn Event.workFinished Event.invokeFunc
      (completeTrace (mkOp 0) false) = false ∧
    precedesIn Event.invokeFunc Event.workFinished
      (completeTrace (mkOp 0) false) = true := by
  decide

/-- Claim C2: the specification states that when the packaged callable
returns normally its return value fulfils the promise.  Evaluating the
embedded `__packaged_handler::operator()` refutes this: on a callable that
returns `Val.base 42` the promise stays unset (the return value is
discarded), while the throwing path does capture and store the failure. -/
theorem c2_packaged_handler_discards_return_value :
    packagedHandlerInvoke (fun _ => Except.ok (Val.base 42)) [] = none ∧
    packagedHandlerInvoke (fun _ => Except.ok (Val.base 42)) [] ≠
      some (Outcome.value (Val.base 42)) ∧
    packagedHandlerInvoke (fun _ => Except.error (Failure.captured 7)) [] =
      some (Outcome.failure (Failure.captured 7)) := by
  refine ⟨rfl, ?_, rfl⟩
  intro h
  exact Option.noConfusion h

/-- Claim C3: completing an operation — whether the user callable returns
or throws — and destroying an operation without running it each call
`_Work_finished` exactly once; the intermediate move inside `_Complete`
never causes a second decrement. -/
theorem c3_work_finished_exactly_once (s : Nat) (funcThrows : Bool) :
    countEvent Event.workFinished (completeTrace (mkOp s) funcThrows) = 1 ∧
    countEvent Event.workFinished (destroyTrace (mkOp s)) = 1 := by
  cases funcThrows <;>
    simp [completeTrace, destroyTrace, mkOp, dtorEvents, countEvent]

/-- Claim C4: `_Post` on the single-thread reentrant path appends the new
operation to the found context's private queue, taking no mutex and firing
no notification and leaving the global queue alone; on every other path it
takes the mutex, appends to the global queue, and fires `notify_one`
exactly when the queue was previously empty (the fresh operation became
the front).  Either way the constructor's `_Work_started` has incremented
the outstanding-work counter. -/
theorem c4_post_paths (oneThread : Bool) (r : Option (List Nat)) (s : Sched)
    (op : Nat) (hfresh : op ∉ s.queue) :
    (∀ q, oneThread = true → r = some q →
      post oneThread r s op =
        { sched := workStarted s, privateQueue := some (q ++ [op]),
          tookMutex := false }) ∧
    (oneThread = false ∨ r = none →
      (post oneThread r s op).privateQueue = none ∧
      (post oneThread r s op).tookMutex = true ∧
      (post oneThread r s op).sched.queue = s.queue ++ [op] ∧
      (post oneThread r s op).sched.notifyOne =
        s.notifyOne + (if s.queue = [] then 1 else 0) ∧
      (post oneThread r s op).sched.outstanding = s.outstanding + 1) := by
  have hnohead : ¬ s.queue.head? = some op := by
    cases hq : s.queue with
    | nil => simp
    | cons x xs =>
        have hne : ¬ (x = op) := by
          intro hxo
          rw [hq, hxo] at hfresh
          exact hfresh (List.mem_cons_self op xs)
        simp [hne]
  constructor
  · intro q h1 h2
    subst h1
    subst h2
    rfl
  · intro h
    have hr : (if oneThread then r else none) = none := by
      rcases h with h | h
      · simp [h]
      · cases oneThread <;> simp [h]
    simp [post, hr, workStarted, hnohead]

/-- Witness for C4 at concrete inputs: reentrant single-thread path and
global path. -/
theorem c4_post_paths_witness :
    (7 : Nat) ∉ (⟨[3, 4], 2, false, 0, 0, []⟩ : Sched).queue ∧
    post true (some [9]) ⟨[3, 4], 2, false, 0, 0, []⟩ 7 =
      { sched := workStarted ⟨[3, 4], 2, false, 0, 0, []⟩,
        privateQueue := some [9, 7], tookMutex := false } ∧
    (post false none ⟨[3, 4], 2, false, 0, 0, []⟩ 7).sched.queue =
      [3, 4] ++ [7] :=
  ⟨by decide,
   (c4_post_paths true (some [9]) ⟨[3, 4], 2, false, 0, 0, []⟩ 7
      (by decide)).1 [9] rfl rfl,
   ((c4_post_paths false none ⟨[3, 4], 2, false, 0, 0, []⟩ 7
      (by decide)).2 (Or.inl rfl)).2.2.1⟩

/-- Claim C5: the per-run context destructor splices every operation left
in the private queue onto the tail of the global queue (taking the mutex
when not already held), so no posted operation is lost; with an empty
private queue it does nothing. -/
theorem c5_context_dtor_flushes (s : Sched) (pq : List Nat)
    (lockOwned : Bool) :
    (contextDtor s pq lockOwned).1.queue = s.queue ++ pq ∧
    (∀ op, op ∈ pq → op ∈ (contextDtor s pq lockOwned).1.queue) ∧
    (pq ≠ [] → (contextDtor s pq lockOwned).2 = true) ∧
    (pq = [] → contextDtor s pq lockOwned = (s, lockOwned)) := by
  cases pq with
  | nil =>
      refine ⟨by simp [contextDtor], by simp, by simp, fun _ => by
        simp [contextDtor]⟩
  | cons x xs =>
      refine ⟨by simp [contextDtor], ?_, by simp [contextDtor], by simp⟩
      intro op hop
      simp only [contextDtor, List.isEmpty_cons]
      exact List.mem_append_right s.queue hop

/-- Witness for C5 with a non-empty private queue and the mutex not
held. -/
theorem c5_context_dtor_flushes_witness :
    (contextDtor ⟨[1, 2], 3, false, 0, 0, []⟩ [5, 6] false).1.queue =
      [1, 2] ++ [5, 6] ∧
    5 ∈ (contextDtor ⟨[1, 2], 3, false, 0, 0, []⟩ [5, 6] false).1.queue ∧
    (contextDtor ⟨[1, 2], 3, false, 0, 0, []⟩ [5, 6] false).2 = true :=
  have h := c5_context_dtor_flushes ⟨[1, 2], 3, false, 0, 0, []⟩ [5, 6] false
  ⟨h.1, h.2.1 5 (by decide), h.2.2.1 (by decide)⟩

/-- Claim C6: the error-code variant of the promise handler fulfils the
future with a system-error failure wrapping a non-zero code, and with the
value packed from the remaining arguments when the code is zero. -/
theorem c6_error_code_variant (e : Nat) (args : List Val) :
    (e ≠ 0 →
      promiseHandlerEcInvoke e args =
        Outcome.failure (Failure.systemError e)) ∧
    (e = 0 →
      promiseHandlerEcInvoke e args =
        Outcome.value (valuePackApply args)) := by
  constructor <;> intro h <;> simp [promiseHandlerEcInvoke, h]

/-- Witness for C6 at code 42 and code 0 with one remaining argument. -/
theorem c6_error_code_variant_witness :
    ((42 : Nat) ≠ 0 ∧
      promiseHandlerEcInvoke 42 [Val.base 5] =
        Outcome.failure (Failure.systemError 42)) ∧
    promiseHandlerEcInvoke 0 [Val.base 5] = Outcome.value (Val.base 5) :=
  ⟨⟨by decide, (c6_error_code_variant 42 [Val.base 5]).1 (by decide)⟩,
   (c6_error_code_variant 0 [Val.base 5]).2 rfl⟩

/-- Claim C7: every run/poll entry point, called with the outstanding-work
counter at zero, stops the scheduler (setting the flag and broadcasting
the condition variable) and returns 0 with the queue untouched and no
operation completed. -/
theorem c7_zero_work_short_circuit (oneThread : Bool)
    (now absTime relTime : Nat) (s : Sched) (h : s.outstanding = 0) :
    run oneThread s = some (stopSched s, 0) ∧
    runOne oneThread s = some (stopSched s, 0) ∧
    runUntil oneThread now absTime s = (stopSched s, 0) ∧
    runFor oneThread now relTime s = (stopSched s, 0) ∧
    poll oneThread s = (stopSched s, 0) ∧
    pollOne oneThread s = (stopSched s, 0) ∧
    (stopSched s).queue = s.queue ∧
    (stopSched s).completed = s.completed ∧
    (stopSched s).stopped = true ∧
    (stopSched s).notifyAll = s.notifyAll + 1 := by
  simp [run, runOne, runUntil, runFor, poll, pollOne, stopSched, h]

/-- Witness for C7: a scheduler with a queued operation id but zero
outstanding work stops and returns 0 from `run`. -/
theorem c7_zero_work_short_circuit_witness :
    (⟨[8], 0, false, 0, 0, []⟩ : Sched).outstanding = 0 ∧
    run true ⟨[8], 0, false, 0, 0, []⟩ =
      some (stopSched ⟨[8], 0, false, 0, 0, []⟩, 0) :=
  ⟨rfl, (c7_zero_work_short_circuit true 0 0 0 ⟨[8], 0, false, 0, 0, []⟩
    rfl).1⟩

/-- Claim C8: `_Dispatch` runs the callable inline whenever the registry
lookup succeeds, whatever `_M_one_thread` is, leaving the scheduler state
untouched; when the lookup fails it behaves exactly as `_Post` with the
same (absent) registry entry. -/
theorem c8_dispatch_paths (oneThread : Bool) (r : Option (List Nat))
    (s : Sched) (op : Nat) :
    (∀ q, r = some q →
      dispatch oneThread r s op = (s, DispatchAction.invokedInline)) ∧
    (r = none →
      dispatch oneThread r s op =
        ((post oneThread r s op).sched,
          DispatchAction.enqueued (post oneThread r s op).privateQueue
            (post oneThread r s op).tookMutex)) := by
  constructor
  · intro q hq
    subst hq
    rfl
  · intro hq
    subst hq
    rfl

/-- Witness for C8: the inline path with `oneThread = false` (the lookup
applies regardless of the flag) and the posting path. -/
theorem c8_dispatch_paths_witness :
    dispatch false (some [4]) ⟨[], 1, false, 0, 0, []⟩ 5 =
      (⟨[], 1, false, 0, 0, []⟩, DispatchAction.invokedInline) ∧
    dispatch true none ⟨[], 1, false, 0, 0, []⟩ 5 =
      ((post true none ⟨[], 1, false, 0, 0, []⟩ 5).sched,
        DispatchAction.enqueued
          (post true none ⟨[], 1, false, 0, 0, []⟩ 5).privateQueue
          (post true none ⟨[], 1, false, 0, 0, []⟩ 5).tookMutex) :=
  ⟨(c8_dispatch_paths false (some [4]) ⟨[], 1, false, 0, 0, []⟩ 5).1 [4] rfl,
   (c8_dispatch_paths true none ⟨[], 1, false, 0, 0, []⟩ 5).2 rfl⟩

/-- Claim C9: the future's value type follows the callback arity — `void`
for zero arguments, the decayed argument type for one, an ordered tuple of
the decayed types for two or more — and invoking the no-error handler
fulfils the future with the correspondingly packed value. -/
theorem c9_value_pack_shapes (t t1 t2 : CType) (ts : List CType)
    (v v1 v2 : Val) (vs : List Val) :
    valuePackType [] = CType.unit ∧
    valuePackType [t] = decay t ∧
    valuePackType (t1 :: t2 :: ts) =
      CType.tuple (decay t1 :: decay t2 :: ts.map decay) ∧
    promiseHandlerInvoke [] = Outcome.value Val.unit ∧
    promiseHandlerInvoke [v] = Outcome.value v ∧
    promiseHandlerInvoke (v1 :: v2 :: vs) =
      Outcome.value (Val.tup (v1 :: v2 :: vs)) :=
  ⟨rfl, rfl, rfl, rfl, rfl, rfl⟩

/-- Claim C10: `_Run_for` is exactly `_Run_until` at the deadline obtained
by adding the duration to the clock sampled at the call, with no further
behaviour of its own. -/
theorem c10_run_for_delegates (oneThread : Bool) (now relTime : Nat)
    (s : Sched) :
    runFor oneThread now relTime s =
      runUntil oneThread now (now + relTime) s :=
  rfl

end Executors
